import Mathlib

/-!
# Replication-slot directory, plugin hooks and `pgbench` command of the operator

Shallow embedding of three source files.

* `internal/management/controller/slots/infrastructure/postgresmanager.go`
  (package `infrastructure`): the four operations `List`, `Update`, `Create`
  and `Delete` that talk to the target PostgreSQL instance through
  `database/sql`.
* `internal/controller/plugins.go` (package `controller`): the lookup of the
  plugin client in the context and the two reconcile hooks.
* `internal/cmd/plugin/pgbench/cmd.go` (package `pgbench`): the argument
  validator of the command and the assignments of its run step.

The database handle `*sql.DB` is an explicit state machine: a state of type `σ`
together with the two entry points the code uses, `ExecContext` and
`QueryContext`.  Every operation returns, next to its Go result, the state the
database is left in and the statements it sent, in order.  Go's `error` is
`Option GoError` (`none` is `nil`).  The trace logging at the top of `Update`,
`Create` and `Delete` touches neither the database nor the result and is left
out.
-/

set_option autoImplicit false

/-! ## Data model -/

/-- Go `error` values; `nil` is `none : Option GoError`. -/
abbrev GoError := String

/-- An argument bound to a `$n` placeholder of a statement. -/
inductive SqlArg where
  | text (s : String)
  | boolean (b : Bool)
  deriving DecidableEq, Repr

/-- One round trip: the SQL text and the arguments bound to it. -/
structure Statement where
  query : String
  args : List SqlArg
  deriving DecidableEq, Repr

/-- The struct `ReplicationSlot` of the package: the five columns `List` scans
plus the computed `IsHA`. -/
structure ReplicationSlot where
  SlotName : String
  /-- Go field `Type` (a reserved word here). -/
  Type_ : String
  Active : Bool
  RestartLSN : String
  HoldsXmin : Bool
  IsHA : Bool
  deriving DecidableEq, Repr

/-- The struct `ReplicationSlotList`. -/
structure ReplicationSlotList where
  Items : List ReplicationSlot
  deriving DecidableEq, Repr

/-- What `rows.Scan` yields on one row delivered by `rows.Next()`: the five
column values, or the decoding error. -/
inductive ScanResult where
  | decoded (slot_name slot_type : String) (active : Bool) (restart_lsn : String)
      (holds_xmin : Bool)
  | failed (err : GoError)
  deriving DecidableEq, Repr

/-- A `*sql.Rows` cursor: the rows `Next()` delivers before it returns false,
and the value of `rows.Err()` at that point. -/
structure Rows where
  scans : List ScanResult
  Err : Option GoError
  deriving DecidableEq, Repr

/-- The handle `*sql.DB` over a database whose states are `σ`. -/
structure SqlDB (σ : Type) where
  ExecContext : σ → Statement → Option GoError × σ
  QueryContext : σ → Statement → Except GoError Rows × σ

/-- The part of `*v1.ReplicationSlotsConfiguration` that `List` reads (the
pointer is taken to be non-nil): the value of
`config.HighAvailability.GetSlotPrefix()` and the method
`config.SynchronizeReplicas.IsExcludedByUser`, whose Go result `(bool, error)`
is an `Except`. -/
structure ReplicationSlotsConfiguration where
  GetSlotPrefix : String
  IsExcludedByUser : String → Except GoError Bool

/-- Result of `Update`, `Create`, `Delete`: the returned error, the database
afterwards, the statements sent. -/
structure ExecOutcome (σ : Type) where
  err : Option GoError
  db : σ
  sent : List Statement

/-- Result of `List`: the two Go results, the database afterwards, the
statements sent. -/
structure ListOutcome (σ : Type) where
  list : ReplicationSlotList
  err : Option GoError
  db : σ
  sent : List Statement

/-! ## The operations -/

/-- Go `strings.HasPrefix(s, p)`. -/
def strings.HasPrefix (s p : String) : Bool :=
  p.data.isPrefixOf s.data

/-- Send one statement with `db.ExecContext` and keep its error (the
`sql.Result` is discarded by every caller). -/
def execStatement {σ : Type} (db : SqlDB σ) (st : σ) (stmt : Statement) : ExecOutcome σ :=
  { err := (db.ExecContext st stmt).1, db := (db.ExecContext st stmt).2, sent := [stmt] }

/-- The statement of `Update`. -/
def advanceStatement (slotName restartLSN : String) : Statement :=
  { query := "SELECT pg_catalog.pg_replication_slot_advance($1, $2)",
    args := [SqlArg.text slotName, SqlArg.text restartLSN] }

/-- The statement of `Create`. -/
def createStatement (slotName : String) (reserveWal : Bool) : Statement :=
  { query := "SELECT pg_catalog.pg_create_physical_replication_slot($1, $2)",
    args := [SqlArg.text slotName, SqlArg.boolean reserveWal] }

/-- The statement of `Delete`. -/
def dropStatement (slotName : String) : Statement :=
  { query := "SELECT pg_catalog.pg_drop_replication_slot($1)",
    args := [SqlArg.text slotName] }

/-- The query of `List`. -/
def listStatement : Statement :=
  { query :=
      "SELECT slot_name, slot_type, active, coalesce(restart_lsn::TEXT, '') AS restart_lsn,\n" ++
      "            xmin IS NOT NULL OR catalog_xmin IS NOT NULL AS holds_xmin\n" ++
      "            FROM pg_catalog.pg_replication_slots\n" ++
      "            WHERE NOT temporary AND slot_type = 'physical'",
    args := [] }

/-- Go `Update`: nothing is sent for an empty `RestartLSN`. -/
def infrastructure.Update {σ : Type} (db : SqlDB σ) (st : σ) (slot : ReplicationSlot) :
    ExecOutcome σ :=
  if slot.RestartLSN = "" then
    { err := none, db := st, sent := [] }
  else
    execStatement db st (advanceStatement slot.SlotName slot.RestartLSN)

/-- Go `Create`. -/
def infrastructure.Create {σ : Type} (db : SqlDB σ) (st : σ) (slot : ReplicationSlot) :
    ExecOutcome σ :=
  execStatement db st (createStatement slot.SlotName (slot.RestartLSN != ""))

/-- Go `Delete`: nothing is sent for an active slot. -/
def infrastructure.Delete {σ : Type} (db : SqlDB σ) (st : σ) (slot : ReplicationSlot) :
    ExecOutcome σ :=
  if slot.Active then
    { err := none, db := st, sent := [] }
  else
    execStatement db st (dropStatement slot.SlotName)

/-- The slot `List` builds from a decoded row, `IsHA` included. -/
def scannedSlot (config : ReplicationSlotsConfiguration)
    (slot_name slot_type : String) (active : Bool) (restart_lsn : String) (holds_xmin : Bool) :
    ReplicationSlot :=
  { SlotName := slot_name, Type_ := slot_type, Active := active, RestartLSN := restart_lsn,
    HoldsXmin := holds_xmin,
    IsHA := strings.HasPrefix slot_name config.GetSlotPrefix }

/-- The `for rows.Next()` loop of `List` with what follows it: `status` is the
accumulator, the first argument the rows still to come, `rowsErr` the value of
`rows.Err()` after the last one. -/
def listLoop (config : ReplicationSlotsConfiguration) (rowsErr : Option GoError) :
    List ScanResult → ReplicationSlotList → ReplicationSlotList × Option GoError
  | [], status =>
    match rowsErr with
    | some e => ({ Items := [] }, some e)
    | none => (status, none)
  | ScanResult.failed e :: _, _ => ({ Items := [] }, some e)
  | ScanResult.decoded slot_name slot_type active restart_lsn holds_xmin :: rest, status =>
    let slot := scannedSlot config slot_name slot_type active restart_lsn holds_xmin
    match config.IsExcludedByUser slot.SlotName with
    | Except.error e => (status, some e)
    | Except.ok isFilteredByUser =>
      if !slot.IsHA && isFilteredByUser then
        listLoop config rowsErr rest status
      else
        listLoop config rowsErr rest { Items := status.Items ++ [slot] }

/-- Go `List`. -/
def infrastructure.List {σ : Type} (db : SqlDB σ) (st : σ)
    (config : ReplicationSlotsConfiguration) : ListOutcome σ :=
  match db.QueryContext st listStatement with
  | (Except.error e, st') =>
    { list := { Items := [] }, err := some e, db := st', sent := [listStatement] }
  | (Except.ok rows, st') =>
    { list := (listLoop config rows.Err rows.scans { Items := [] }).1,
      err := (listLoop config rows.Err rows.scans { Items := [] }).2,
      db := st', sent := [listStatement] }

/-! ## Vocabulary of the properties -/

/-- The slot a row yields when it decodes (none for a row `Scan` rejects). -/
def rowSlot (config : ReplicationSlotsConfiguration) : ScanResult → Option ReplicationSlot
  | ScanResult.decoded n t a l h => some (scannedSlot config n t a l h)
  | ScanResult.failed _ => none

/-- The row decodes and the user-exclusion check on its name returns a
Boolean, not an error. -/
def rowChecks (config : ReplicationSlotsConfiguration) : ScanResult → Bool
  | ScanResult.decoded n _ _ _ _ =>
    match config.IsExcludedByUser n with
    | Except.ok _ => true
    | Except.error _ => false
  | ScanResult.failed _ => false

/-- The user-exclusion check answers "excluded" for this name. -/
def excludedByUser (config : ReplicationSlotsConfiguration) (name : String) : Bool :=
  match config.IsExcludedByUser name with
  | Except.ok b => b
  | Except.error _ => false

/-- The filter as the specification words it: a row stays when its name starts
with the HA prefix or the user does not exclude it. -/
def specKeeps (config : ReplicationSlotsConfiguration) : ScanResult → Bool
  | ScanResult.decoded n _ _ _ _ =>
    strings.HasPrefix n config.GetSlotPrefix || !excludedByUser config n
  | ScanResult.failed _ => false

/-- The slots of the rows the specification's filter keeps, in row order. -/
def specKept (config : ReplicationSlotsConfiguration) (rows : List ScanResult) :
    List ReplicationSlot :=
  (rows.filter (specKeeps config)).filterMap (rowSlot config)

/-- The row decodes and its name starts with the HA prefix `p`. -/
def haRow (p : String) : ScanResult → Bool
  | ScanResult.decoded n _ _ _ _ => strings.HasPrefix n p
  | ScanResult.failed _ => false

/-- Value of one hexadecimal digit. -/
def hexDigitValue (c : Char) : Option Nat :=
  if '0' ≤ c ∧ c ≤ '9' then some (c.toNat - '0'.toNat)
  else if 'A' ≤ c ∧ c ≤ 'F' then some (c.toNat - 'A'.toNat + 10)
  else if 'a' ≤ c ∧ c ≤ 'f' then some (c.toNat - 'a'.toNat + 10)
  else none

/-- Value of a non-empty string of hexadecimal digits. -/
def hexValue : List Char → Option Nat
  | [] => none
  | c :: cs =>
    (c :: cs).foldl
      (fun acc d =>
        match acc, hexDigitValue d with
        | some v, some x => some (v * 16 + x)
        | _, _ => none)
      (some 0)

/-- Modelled from the spec: the LSN ordering the specification appeals to
("per LSN ordering") is not in the sources.  A textual LSN `hi/lo` is two
hexadecimal numbers and stands for the position `hi * 2^32 + lo`. -/
def lsnValue (lsn : String) : Option Nat :=
  match lsn.data.dropWhile (fun c => c != '/') with
  | '/' :: lo =>
    match hexValue (lsn.data.takeWhile (fun c => c != '/')), hexValue lo with
    | some h, some l => some (h * 2 ^ 32 + l)
    | _, _ => none
  | _ => none

/-- Modelled from the spec: `actual >= desired` in LSN order, for two
well-formed positions. -/
def lsnGE (actual desired : String) : Bool :=
  match lsnValue actual, lsnValue desired with
  | some a, some d => decide (d ≤ a)
  | _, _ => false

/-! ## Concrete databases for the examples -/

/-- An in-memory slot catalogue standing for a PostgreSQL instance: its state
is the list of physical slots.  Dropping an unknown or active slot, creating an
existing one and advancing a slot to a position that is not ahead of its own
are errors that leave the catalogue as it is. -/
def catalogExec (cat : List ReplicationSlot) (stmt : Statement) :
    Option GoError × List ReplicationSlot :=
  match stmt.args with
  | [SqlArg.text name] =>
    match cat.find? (fun s => s.SlotName == name) with
    | none => (some "replication slot does not exist", cat)
    | some s =>
      if s.Active then (some "replication slot is active", cat)
      else (none, cat.filter (fun s => s.SlotName != name))
  | [SqlArg.text name, SqlArg.boolean _] =>
    match cat.find? (fun s => s.SlotName == name) with
    | some _ => (some "replication slot already exists", cat)
    | none =>
      (none, cat ++ [{ SlotName := name, Type_ := "physical", Active := false,
                       RestartLSN := "", HoldsXmin := false, IsHA := false }])
  | [SqlArg.text name, SqlArg.text lsn] =>
    match cat.find? (fun s => s.SlotName == name) with
    | none => (some "replication slot does not exist", cat)
    | some s =>
      if lsnGE s.RestartLSN lsn then (some "cannot advance replication slot", cat)
      else (none, cat.map (fun s => if s.SlotName == name then { s with RestartLSN := lsn } else s))
  | _ => (some "unknown statement", cat)

/-- The in-memory catalogue as a database handle; the listing query returns
one row per slot. -/
def catalogDB : SqlDB (List ReplicationSlot) where
  ExecContext := catalogExec
  QueryContext := fun cat _ =>
    (Except.ok
      { scans := cat.map (fun s =>
          ScanResult.decoded s.SlotName s.Type_ s.Active s.RestartLSN s.HoldsXmin),
        Err := none },
     cat)

/-- The position the named slot has in the catalogue. -/
def catalogRestartLSN (cat : List ReplicationSlot) (name : String) : Option String :=
  (cat.find? (fun s => s.SlotName == name)).map (fun s => s.RestartLSN)

/-- A database that answers the listing query with the canned response it
holds as its state, and accepts every statement. -/
def scriptedDB : SqlDB (Except GoError Rows) where
  ExecContext := fun st _ => (none, st)
  QueryContext := fun st _ => (st, st)

/-- A physical, inactive slot with the given name and position. -/
def slotAt (name lsn : String) : ReplicationSlot :=
  { SlotName := name, Type_ := "physical", Active := false, RestartLSN := lsn,
    HoldsXmin := false, IsHA := false }

/-- Modelled from the spec: the method `IsExcludedByUser` of package `api/v1`
is not in the sources.  The specification makes a pattern that does not compile
its only failure, "a configuration error, not a per-slot error" that is
"global, not per-row": `compileErr` is that error, returned for every name
alike; when the patterns compile, `isMatch` tells whether a name matches one of
them. -/
def patternCheck (compileErr : Option GoError) (isMatch : String → Bool) (name : String) :
    Except GoError Bool :=
  match compileErr with
  | some e => Except.error e
  | none => Except.ok (isMatch name)

/-- The configuration with the given HA prefix whose exclusion check is the
pattern check of the specification. -/
def patternConfig (haPrefix : String) (compileErr : Option GoError) (isMatch : String → Bool) :
    ReplicationSlotsConfiguration where
  GetSlotPrefix := haPrefix
  IsExcludedByUser := patternCheck compileErr isMatch

/-- A configuration with HA prefix `_cnpg_` whose exclude patterns compile and
match exactly the name `skipme`. -/
def sampleConfig : ReplicationSlotsConfiguration :=
  patternConfig "_cnpg_" none (fun n => n == "skipme")

/-- The configuration `sampleConfig` with a pattern that does not compile: the
check fails on every name. -/
def failingConfig : ReplicationSlotsConfiguration :=
  patternConfig "_cnpg_" (some "pattern does not compile") (fun n => n == "skipme")

/-! ## Plugin hooks of the controller (package `controller`, `plugins.go`)

A Go call either returns or panics.  A context is the chain of values bound
with `context.WithValue`; the values are of type `any`, and the only thing the
code does with one is the unchecked assertion `.(cnpgiClient.Client)`.  The
interface `cnpgiClient.Client` is a type `κ` of (non-nil) client values with
the table of the two methods the hooks call; a Go variable of the interface
type is an `Option κ`, `none` being the nil interface.  Clusters, objects and
hook results are the types `γ`, `ω` and `ρ`. -/

/-- Outcome of a Go call: it returns a value or it panics. -/
inductive GoCall (α : Type) where
  | returns (a : α)
  | panics (msg : String)
  deriving DecidableEq, Repr

/-- Keys of context values: the constant `utils.PluginClientKey`, and any
other key. -/
inductive ContextKey where
  | PluginClientKey
  | other (name : String)
  deriving DecidableEq, Repr

/-- A value of type `any` as the assertion `.(cnpgiClient.Client)` sees it:
the nil interface, a value that implements `Client`, or a value of a type
(named by `typeName`) that does not. -/
inductive AnyValue (κ : Type) where
  | nil
  | client (c : κ)
  | other (typeName : String)
  deriving DecidableEq, Repr

/-- A non-nil `context.Context`, as far as `Value` goes. -/
inductive Context (κ : Type) where
  | background
  | withValue (parent : Context κ) (key : ContextKey) (val : AnyValue κ)
  deriving DecidableEq, Repr

/-- Go `ctx.Value(key)`: the innermost value bound to the key, nil when there
is none. -/
def Context.Value {κ : Type} : Context κ → ContextKey → AnyValue κ
  | Context.background, _ => AnyValue.nil
  | Context.withValue parent k v, key => if key = k then v else Context.Value parent key

/-- The methods of `cnpgiClient.Client` that the hooks call. -/
structure ClientMethods (κ γ ω ρ : Type) where
  PreReconcile : κ → Context κ → γ → ω → ρ
  PostReconcile : κ → Context κ → γ → ω → ρ

/-- Go `setPluginClientInContext`. -/
def controller.setPluginClientInContext {κ : Type} (ctx : Context κ) (client : Option κ) :
    Context κ :=
  Context.withValue ctx ContextKey.PluginClientKey
    (match client with
     | none => AnyValue.nil
     | some c => AnyValue.client c)

/-- Go `getPluginClientFromContext`: the single-value type assertion panics
unless the value under the key implements `Client`. -/
def controller.getPluginClientFromContext {κ : Type} (ctx : Context κ) : GoCall κ :=
  match Context.Value ctx ContextKey.PluginClientKey with
  | AnyValue.client c => GoCall.returns c
  | AnyValue.nil =>
    GoCall.panics "interface conversion: interface is nil, not client.Client"
  | AnyValue.other typeName =>
    GoCall.panics ("interface conversion: " ++ typeName ++ " is not client.Client")

/-- Go `preReconcilePluginHooks`. -/
def controller.preReconcilePluginHooks {κ γ ω ρ : Type} (methods : ClientMethods κ γ ω ρ)
    (ctx : Context κ) (cluster : γ) (object : ω) : GoCall ρ :=
  match controller.getPluginClientFromContext ctx with
  | GoCall.panics msg => GoCall.panics msg
  | GoCall.returns pluginClient =>
    GoCall.returns (methods.PreReconcile pluginClient ctx cluster object)

/-- Go `postReconcilePluginHooks`. -/
def controller.postReconcilePluginHooks {κ γ ω ρ : Type} (methods : ClientMethods κ γ ω ρ)
    (ctx : Context κ) (cluster : γ) (object : ω) : GoCall ρ :=
  match controller.getPluginClientFromContext ctx with
  | GoCall.panics msg => GoCall.panics msg
  | GoCall.returns pluginClient =>
    GoCall.returns (methods.PostReconcile pluginClient ctx cluster object)

/-! ## The `pgbench` plugin command (package `pgbench`, `cmd.go`) -/

/-- The part of `*cobra.Command` that `validateCommandArgs` reads: the value of
`cmd.ArgsLenAtDash()`, the number of arguments before `--`, or `-1` when the
command line has no `--`. -/
structure cobra.Command where
  ArgsLenAtDash : Int
  deriving DecidableEq, Repr

/-- The validator `cobra.MinimumNArgs(n)`. -/
def cobra.MinimumNArgs (n : Nat) (_cmd : cobra.Command) (args : List String) : Option GoError :=
  if args.length < n then
    some ("requires at least " ++ toString n ++ " arg(s), only received " ++
      toString args.length)
  else none

/-- Go `validateCommandArgs`. -/
def pgbench.validateCommandArgs (cmd : cobra.Command) (args : List String) : Option GoError :=
  match cobra.MinimumNArgs 1 cmd args with
  | some err => some err
  | none =>
    if cmd.ArgsLenAtDash > 1 then
      some "PGBENCH_COMMAND_ARGS should be passed after the -- delimiter"
    else none

/-- The struct `pgBenchRun`, with the fields `cmd.go` binds or assigns. -/
structure pgBenchRun where
  jobName : String
  dbName : String
  ttlSecondsAfterFinished : Int
  dryRun : Bool
  nodeSelector : List String
  clusterName : String
  pgBenchCommandArgs : List String
  deriving DecidableEq, Repr

/-- The two assignments of the `RunE` closure of `NewCmd`, up to the call of
`run.execute`: `args[0]` panics on an empty slice. -/
def pgbench.runE (run : pgBenchRun) (args : List String) : GoCall pgBenchRun :=
  match args with
  | [] => GoCall.panics "runtime error: index out of range [0] with length 0"
  | cluster :: rest =>
    GoCall.returns { run with clusterName := cluster, pgBenchCommandArgs := rest }

/-- The `run` value `NewCmd` starts from, with the flag defaults. -/
def pgbench.newRun : pgBenchRun :=
  { jobName := "", dbName := "app", ttlSecondsAfterFinished := 0, dryRun := false,
    nodeSelector := [], clusterName := "", pgBenchCommandArgs := [] }

/-- A command line as the flag parser hands it over: the positional arguments
before `--` and, when there is a `--`, those after it. -/
structure CommandLine where
  beforeDash : List String
  afterDash : Option (List String)
  deriving DecidableEq, Repr

/-- The `args` slice of a command line: every positional argument, the `--`
itself removed. -/
def CommandLine.args (line : CommandLine) : List String :=
  line.beforeDash ++ line.afterDash.getD []

/-- The command state of a command line: `ArgsLenAtDash` counts the arguments
before `--` and is `-1` without one. -/
def CommandLine.command (line : CommandLine) : cobra.Command :=
  { ArgsLenAtDash :=
      match line.afterDash with
      | none => -1
      | some _ => (line.beforeDash.length : Int) }

/-! ## Concrete plugin clients for the examples -/

/-- Clients named by a string whose hooks answer with their name and the hook
called. -/
def namedClients : ClientMethods String String String String where
  PreReconcile := fun c _ cluster object => c ++ ":pre:" ++ cluster ++ ":" ++ object
  PostReconcile := fun c _ cluster object => c ++ ":post:" ++ cluster ++ ":" ++ object

/-- The relation between a row and the same row with other `active`,
`restart_lsn` and `holds_xmin` values. -/
def sameNamedRow : ScanResult → ScanResult → Prop
  | ScanResult.decoded n t _ _ _, ScanResult.decoded n' t' _ _ _ => n = n' ∧ t = t'
  | ScanResult.failed e, ScanResult.failed e' => e = e'
  | _, _ => False

/-- What identifies a listed slot apart from the observed `Active`,
`RestartLSN` and `HoldsXmin`. -/
def slotIdentity (s : ReplicationSlot) : String × String × Bool :=
  (s.SlotName, s.Type_, s.IsHA)

/-! ## Delete, Update, Create -/

/-- C1: `Delete` sends the drop statement for `slot.SlotName` if and only if
`slot.Active` is false.  For an active slot nothing is sent, the database is
left as it was and the result is nil; for an inactive slot exactly one
statement is sent, the drop of that name, and the result and the database are
those of that statement. -/
theorem Delete_drops_iff_inactive {σ : Type} (db : SqlDB σ) (st : σ) (slot : ReplicationSlot) :
    (dropStatement slot.SlotName ∈ (infrastructure.Delete db st slot).sent ↔ slot.Active = false) ∧
    (slot.Active = true →
      (infrastructure.Delete db st slot).sent = [] ∧
      (infrastructure.Delete db st slot).db = st ∧
      (infrastructure.Delete db st slot).err = none) ∧
    (slot.Active = false →
      (infrastructure.Delete db st slot).sent =
        [{ query := "SELECT pg_catalog.pg_drop_replication_slot($1)",
           args := [SqlArg.text slot.SlotName] }] ∧
      (infrastructure.Delete db st slot).err =
        (db.ExecContext st (dropStatement slot.SlotName)).1 ∧
      (infrastructure.Delete db st slot).db =
        (db.ExecContext st (dropStatement slot.SlotName)).2) := by
  cases hA : slot.Active <;>
    simp [infrastructure.Delete, execStatement, dropStatement, hA]

/-- C1 at an active and an inactive slot of the in-memory catalogue. -/
theorem Delete_drops_iff_inactive_witness :
    (infrastructure.Delete catalogDB [{ slotAt "s" "0/1" with Active := true }]
        { slotAt "s" "0/1" with Active := true }).sent = [] ∧
    (infrastructure.Delete catalogDB [slotAt "s" "0/1"] (slotAt "s" "0/1")).sent =
        [{ query := "SELECT pg_catalog.pg_drop_replication_slot($1)",
           args := [SqlArg.text "s"] }] :=
  ⟨((Delete_drops_iff_inactive catalogDB [{ slotAt "s" "0/1" with Active := true }]
        { slotAt "s" "0/1" with Active := true }).2.1 rfl).1,
   ((Delete_drops_iff_inactive catalogDB [slotAt "s" "0/1"] (slotAt "s" "0/1")).2.2 rfl).1⟩

/-- C2: `Update` sends the advance statement for `slot.SlotName` and
`slot.RestartLSN` if and only if `slot.RestartLSN` is non-empty.  With an empty
`RestartLSN` nothing is sent, the database is left as it was and the result is
nil; otherwise exactly one statement is sent, carrying that name and that LSN,
and the result and the database are those of that statement. -/
theorem Update_advances_iff_lsn_nonempty {σ : Type} (db : SqlDB σ) (st : σ)
    (slot : ReplicationSlot) :
    (advanceStatement slot.SlotName slot.RestartLSN ∈ (infrastructure.Update db st slot).sent ↔
      slot.RestartLSN ≠ "") ∧
    (slot.RestartLSN = "" →
      (infrastructure.Update db st slot).sent = [] ∧
      (infrastructure.Update db st slot).db = st ∧
      (infrastructure.Update db st slot).err = none) ∧
    (slot.RestartLSN ≠ "" →
      (infrastructure.Update db st slot).sent =
        [{ query := "SELECT pg_catalog.pg_replication_slot_advance($1, $2)",
           args := [SqlArg.text slot.SlotName, SqlArg.text slot.RestartLSN] }] ∧
      (infrastructure.Update db st slot).err =
        (db.ExecContext st (advanceStatement slot.SlotName slot.RestartLSN)).1 ∧
      (infrastructure.Update db st slot).db =
        (db.ExecContext st (advanceStatement slot.SlotName slot.RestartLSN)).2) := by
  by_cases hL : slot.RestartLSN = "" <;>
    simp [infrastructure.Update, execStatement, advanceStatement, hL]

/-- C2 at a slot without a position and at a slot with one. -/
theorem Update_advances_iff_lsn_nonempty_witness :
    (infrastructure.Update catalogDB [slotAt "s" "0/1"] (slotAt "s" "")).sent = [] ∧
    (infrastructure.Update catalogDB [slotAt "s" "0/1"] (slotAt "s" "0/2")).sent =
        [{ query := "SELECT pg_catalog.pg_replication_slot_advance($1, $2)",
           args := [SqlArg.text "s", SqlArg.text "0/2"] }] :=
  ⟨((Update_advances_iff_lsn_nonempty catalogDB [slotAt "s" "0/1"] (slotAt "s" "")).2.1 rfl).1,
   ((Update_advances_iff_lsn_nonempty catalogDB [slotAt "s" "0/1"] (slotAt "s" "0/2")).2.2
      (by decide)).1⟩

/-- C3, refuted as stated: the catalogue holds slot `s` at `0/3000000`, the
requested position `0/2000000` is behind it, and `Update` still sends the
advance statement. -/
theorem Update_sends_advance_when_not_ahead :
    catalogRestartLSN [slotAt "s" "0/3000000"] "s" = some "0/3000000" ∧
    lsnGE "0/3000000" "0/2000000" = true ∧
    (infrastructure.Update catalogDB [slotAt "s" "0/3000000"] (slotAt "s" "0/2000000")).sent =
      [advanceStatement "s" "0/2000000"] := by
  decide

/-- C3 as amended: what `Update` sends does not depend on the database it is
run against, hence not on the position the slot has there; it sends nothing
exactly when the requested `RestartLSN` is empty, and the advance statement for
the requested position otherwise. -/
theorem Update_sent_independent_of_database {σ τ : Type} (db : SqlDB σ) (db' : SqlDB τ)
    (st : σ) (st' : τ) (slot : ReplicationSlot) :
    (infrastructure.Update db st slot).sent = (infrastructure.Update db' st' slot).sent ∧
    ((infrastructure.Update db st slot).sent = [] ↔ slot.RestartLSN = "") ∧
    (infrastructure.Update db st slot).sent =
      (if slot.RestartLSN = "" then [] else [advanceStatement slot.SlotName slot.RestartLSN]) := by
  by_cases hL : slot.RestartLSN = "" <;>
    simp [infrastructure.Update, execStatement, hL]

/-- C4: `Create` always sends exactly one statement, the
`pg_create_physical_replication_slot` call naming `slot.SlotName`, whose
reserve-WAL argument is true if and only if `slot.RestartLSN` is non-empty; the
result and the database are those of that statement. -/
theorem Create_sends_one_statement {σ : Type} (db : SqlDB σ) (st : σ) (slot : ReplicationSlot) :
    ∃ reserveWal : Bool,
      (reserveWal = true ↔ slot.RestartLSN ≠ "") ∧
      (infrastructure.Create db st slot).sent =
        [{ query := "SELECT pg_catalog.pg_create_physical_replication_slot($1, $2)",
           args := [SqlArg.text slot.SlotName, SqlArg.boolean reserveWal] }] ∧
      (infrastructure.Create db st slot).err =
        (db.ExecContext st (createStatement slot.SlotName reserveWal)).1 ∧
      (infrastructure.Create db st slot).db =
        (db.ExecContext st (createStatement slot.SlotName reserveWal)).2 := by
  refine ⟨slot.RestartLSN != "", ?_, rfl, rfl, rfl⟩
  simp

/-- C5, refuted as stated: two slots named `s` with the different non-empty
positions `0/2000000` and `0/3000000` make `Create` send the same request. -/
theorem Create_request_same_for_different_lsn :
    (slotAt "s" "0/2000000").SlotName = (slotAt "s" "0/3000000").SlotName ∧
    (slotAt "s" "0/2000000").RestartLSN ≠ "" ∧
    (slotAt "s" "0/3000000").RestartLSN ≠ "" ∧
    (slotAt "s" "0/2000000").RestartLSN ≠ (slotAt "s" "0/3000000").RestartLSN ∧
    (infrastructure.Create catalogDB [] (slotAt "s" "0/2000000")).sent =
      (infrastructure.Create catalogDB [] (slotAt "s" "0/3000000")).sent := by
  decide

/-- C5 as amended: for a slot with a non-empty `RestartLSN` the create request
carries the name and the reserve-WAL flag `true` and nothing else, so two slots
with the same name and non-empty `RestartLSN` values produce the same request. -/
theorem Create_request_has_flag_not_lsn {σ : Type} (db : SqlDB σ) (st : σ)
    (slot slot' : ReplicationSlot)
    (hL : slot.RestartLSN ≠ "") (hL' : slot'.RestartLSN ≠ "")
    (hN : slot.SlotName = slot'.SlotName) :
    (infrastructure.Create db st slot).sent =
      [{ query := "SELECT pg_catalog.pg_create_physical_replication_slot($1, $2)",
         args := [SqlArg.text slot.SlotName, SqlArg.boolean true] }] ∧
    (infrastructure.Create db st slot).sent = (infrastructure.Create db st slot').sent := by
  have hb : (slot.RestartLSN != "") = true := by simp [hL]
  have hb' : (slot'.RestartLSN != "") = true := by simp [hL']
  simp [infrastructure.Create, execStatement, createStatement, hb, hb', hN]

/-- C5 as amended, at two slots named `s` with different positions. -/
theorem Create_request_has_flag_not_lsn_witness :
    (infrastructure.Create catalogDB [] (slotAt "s" "0/2000000")).sent =
      [{ query := "SELECT pg_catalog.pg_create_physical_replication_slot($1, $2)",
         args := [SqlArg.text "s", SqlArg.boolean true] }] ∧
    (infrastructure.Create catalogDB [] (slotAt "s" "0/2000000")).sent =
      (infrastructure.Create catalogDB [] (slotAt "s" "0/3000000")).sent :=
  Create_request_has_flag_not_lsn catalogDB [] (slotAt "s" "0/2000000") (slotAt "s" "0/3000000")
    (by decide) (by decide) rfl


/-! ## List -/

theorem specKept_cons_decoded (config : ReplicationSlotsConfiguration)
    (n t : String) (a : Bool) (l : String) (h : Bool) (rows : List ScanResult) :
    specKept config (ScanResult.decoded n t a l h :: rows) =
      if strings.HasPrefix n config.GetSlotPrefix || !excludedByUser config n then
        scannedSlot config n t a l h :: specKept config rows
      else specKept config rows := by
  by_cases hk : (strings.HasPrefix n config.GetSlotPrefix || !excludedByUser config n) = true
  · simp [specKept, List.filter_cons, specKeeps, rowSlot, hk]
  · simp [specKept, List.filter_cons, specKeeps, hk]

theorem listLoop_append (config : ReplicationSlotsConfiguration) (rowsErr : Option GoError) :
    ∀ (pre rest : List ScanResult) (status : ReplicationSlotList),
      (∀ r ∈ pre, rowChecks config r = true) →
      listLoop config rowsErr (pre ++ rest) status =
        listLoop config rowsErr rest { Items := status.Items ++ specKept config pre }
  | [], rest, status, _ => by simp [specKept]
  | ScanResult.failed e :: pre, rest, status, hpre => by
    have h1 := hpre _ (List.mem_cons_self _ _)
    simp [rowChecks] at h1
  | ScanResult.decoded n t a l h :: pre, rest, status, hpre => by
    have h1 := hpre _ (List.mem_cons_self _ _)
    have h2 : ∀ r ∈ pre, rowChecks config r = true :=
      fun r hr => hpre r (List.mem_cons_of_mem _ hr)
    cases hc : config.IsExcludedByUser n with
    | error e => simp [rowChecks, hc] at h1
    | ok b =>
      have hx : excludedByUser config n = b := by simp [excludedByUser, hc]
      rw [specKept_cons_decoded, hx]
      simp only [List.cons_append, listLoop, scannedSlot, hc]
      cases hp : strings.HasPrefix n config.GetSlotPrefix <;> cases b <;>
        simp [listLoop_append config rowsErr pre rest _ h2, scannedSlot, hp]

theorem listLoop_nil (config : ReplicationSlotsConfiguration) (rowsErr : Option GoError)
    (status : ReplicationSlotList) :
    listLoop config rowsErr [] status =
      match rowsErr with
      | some e => ({ Items := [] }, some e)
      | none => (status, none) := by
  cases rowsErr <;> simp [listLoop]

theorem listLoop_failed (config : ReplicationSlotsConfiguration) (rowsErr : Option GoError)
    (e : GoError) (rest : List ScanResult) (status : ReplicationSlotList) :
    listLoop config rowsErr (ScanResult.failed e :: rest) status = ({ Items := [] }, some e) := by
  simp [listLoop]

theorem listLoop_check_error (config : ReplicationSlotsConfiguration) (rowsErr : Option GoError)
    (n t : String) (a : Bool) (l : String) (h : Bool) (e : GoError)
    (rest : List ScanResult) (status : ReplicationSlotList)
    (herr : config.IsExcludedByUser n = Except.error e) :
    listLoop config rowsErr (ScanResult.decoded n t a l h :: rest) status = (status, some e) := by
  simp [listLoop, scannedSlot, herr]

theorem mem_specKept (config : ReplicationSlotsConfiguration) (rows : List ScanResult)
    (s : ReplicationSlot) :
    s ∈ specKept config rows ↔ ∃ r ∈ rows, specKeeps config r = true ∧ rowSlot config r = some s := by
  simp [specKept, List.mem_filterMap, List.mem_filter, and_assoc]

theorem scannedSlot_name (config : ReplicationSlotsConfiguration)
    (n t : String) (a : Bool) (l : String) (h : Bool) :
    (scannedSlot config n t a l h).SlotName = n := rfl

theorem rowSlot_eq_scannedSlot (config : ReplicationSlotsConfiguration) (r : ScanResult)
    (n t : String) (a : Bool) (l : String) (h : Bool)
    (hr : rowSlot config r = some (scannedSlot config n t a l h)) :
    ∃ t' a' l' h', r = ScanResult.decoded n t' a' l' h' := by
  cases r with
  | failed e => simp [rowSlot] at hr
  | decoded n' t' a' l' h' =>
    simp only [rowSlot, Option.some.injEq] at hr
    have hn : n' = n := congrArg ReplicationSlot.SlotName hr
    exact ⟨t', a', l', h', by rw [hn]⟩

theorem List_of_query_error {σ : Type} (db : SqlDB σ) (st st' : σ)
    (config : ReplicationSlotsConfiguration) (e : GoError)
    (hq : db.QueryContext st listStatement = (Except.error e, st')) :
    infrastructure.List db st config =
      { list := { Items := [] }, err := some e, db := st', sent := [listStatement] } := by
  simp [infrastructure.List, hq]

theorem List_of_query_ok {σ : Type} (db : SqlDB σ) (st st' : σ)
    (config : ReplicationSlotsConfiguration) (rows : Rows)
    (hq : db.QueryContext st listStatement = (Except.ok rows, st')) :
    infrastructure.List db st config =
      { list := (listLoop config rows.Err rows.scans { Items := [] }).1,
        err := (listLoop config rows.Err rows.scans { Items := [] }).2,
        db := st', sent := [listStatement] } := by
  simp [infrastructure.List, hq]

theorem listLoop_checked (config : ReplicationSlotsConfiguration) (rowsErr : Option GoError)
    (rows : List ScanResult) (hrows : ∀ r ∈ rows, rowChecks config r = true) :
    listLoop config rowsErr rows { Items := [] } =
      match rowsErr with
      | some e => ({ Items := [] }, some e)
      | none => ({ Items := specKept config rows }, none) := by
  have h := listLoop_append config rowsErr rows [] { Items := [] } hrows
  rw [List.append_nil] at h
  rw [h, listLoop_nil]
  simp

theorem listLoop_items_origin (config : ReplicationSlotsConfiguration)
    (rowsErr : Option GoError) :
    ∀ (rows : List ScanResult) (status : ReplicationSlotList) (s : ReplicationSlot),
      s ∈ (listLoop config rowsErr rows status).1.Items →
      s ∈ status.Items ∨ ∃ r ∈ rows, rowSlot config r = some s
  | [], status, s, hs => by
    cases rowsErr <;> simp [listLoop] at hs
    exact Or.inl hs
  | ScanResult.failed e :: rest, status, s, hs => by
    simp [listLoop] at hs
  | ScanResult.decoded n t a l h :: rest, status, s, hs => by
    cases hc : config.IsExcludedByUser n with
    | error e =>
      rw [listLoop_check_error config rowsErr n t a l h e rest status hc] at hs
      exact Or.inl hs
    | ok b =>
      simp only [listLoop, scannedSlot_name, hc] at hs
      split at hs
      · rcases listLoop_items_origin config rowsErr rest status s hs with h1 | ⟨r, hr, hrs⟩
        · exact Or.inl h1
        · exact Or.inr ⟨r, List.mem_cons_of_mem _ hr, hrs⟩
      · rcases listLoop_items_origin config rowsErr rest _ s hs with h1 | ⟨r, hr, hrs⟩
        · simp only [List.mem_append, List.mem_singleton] at h1
          rcases h1 with h1 | h1
          · exact Or.inl h1
          · exact Or.inr ⟨_, List.mem_cons_self _ _, by simp [rowSlot, h1]⟩
        · exact Or.inr ⟨r, List.mem_cons_of_mem _ hr, hrs⟩

theorem List_items_origin {σ : Type} (db : SqlDB σ) (st : σ)
    (config : ReplicationSlotsConfiguration) (s : ReplicationSlot)
    (hs : s ∈ (infrastructure.List db st config).list.Items) :
    ∃ n t a l h, s = scannedSlot config n t a l h := by
  rcases hq : db.QueryContext st listStatement with ⟨res, st'⟩
  cases res with
  | error e =>
    rw [List_of_query_error db st st' config e hq] at hs
    simp at hs
  | ok rows =>
    rw [List_of_query_ok db st st' config rows hq] at hs
    rcases listLoop_items_origin config rows.Err rows.scans _ s hs with h1 | ⟨r, _, hrs⟩
    · simp at h1
    · cases r with
      | failed e => simp [rowSlot] at hrs
      | decoded n t a l h =>
        simp only [rowSlot, Option.some.injEq] at hrs
        exact ⟨n, t, a, l, h, hrs.symm⟩

/-- C6: when the query succeeds, every row decodes, the user-exclusion check
returns a Boolean on every row and iteration ends without error, `List`
returns nil and exactly the slots of the rows whose name starts with the HA
prefix or is not excluded by the user, in query-result order; this is a
subsequence of the rows' slots, and a row is left out if and only if it is not
HA and the user excludes it. -/
theorem List_returns_kept_rows {σ : Type} (db : SqlDB σ) (st st' : σ)
    (config : ReplicationSlotsConfiguration) (rows : Rows)
    (hq : db.QueryContext st listStatement = (Except.ok rows, st'))
    (hend : rows.Err = none)
    (hrows : ∀ r ∈ rows.scans, rowChecks config r = true) :
    (infrastructure.List db st config).err = none ∧
    (infrastructure.List db st config).list.Items = specKept config rows.scans ∧
    List.Sublist (infrastructure.List db st config).list.Items
      (rows.scans.filterMap (rowSlot config)) ∧
    (∀ n t a l h, ScanResult.decoded n t a l h ∈ rows.scans →
      (scannedSlot config n t a l h ∉ (infrastructure.List db st config).list.Items ↔
        (strings.HasPrefix n config.GetSlotPrefix = false ∧
          config.IsExcludedByUser n = Except.ok true))) := by
  have hL := List_of_query_ok db st st' config rows hq
  rw [listLoop_checked config rows.Err rows.scans hrows, hend] at hL
  rw [hL]
  refine ⟨rfl, rfl, ?_, ?_⟩
  · exact (List.filter_sublist rows.scans).filterMap (rowSlot config)
  · intro n t a l h hmem
    have hchk := hrows _ hmem
    show scannedSlot config n t a l h ∉ specKept config rows.scans ↔ _
    rw [mem_specKept]
    cases hc : config.IsExcludedByUser n with
    | error e => simp [rowChecks, hc] at hchk
    | ok b =>
      constructor
      · intro hnot
        have hk : specKeeps config (ScanResult.decoded n t a l h) ≠ true :=
          fun hk => hnot ⟨_, hmem, hk, rfl⟩
        simp [specKeeps, excludedByUser, hc] at hk
        simp [hk]
      · rintro ⟨hp, hb⟩ ⟨r, _, hk, hrs⟩
        rcases rowSlot_eq_scannedSlot config r n t a l h hrs with ⟨t', a', l', h', rfl⟩
        simp [specKeeps, excludedByUser, hc, hp] at hk
        simp [hk] at hb

/-- C6 on a catalogue with an HA slot, an excluded user slot and a kept user
slot. -/
theorem List_returns_kept_rows_witness :
    (infrastructure.List catalogDB
        [slotAt "_cnpg_a" "0/1", slotAt "skipme" "", slotAt "mine" "0/2"] sampleConfig).err = none ∧
    (infrastructure.List catalogDB
        [slotAt "_cnpg_a" "0/1", slotAt "skipme" "", slotAt "mine" "0/2"] sampleConfig).list.Items =
      specKept sampleConfig
        [ScanResult.decoded "_cnpg_a" "physical" false "0/1" false,
         ScanResult.decoded "skipme" "physical" false "" false,
         ScanResult.decoded "mine" "physical" false "0/2" false] :=
  have h := List_returns_kept_rows catalogDB
    [slotAt "_cnpg_a" "0/1", slotAt "skipme" "", slotAt "mine" "0/2"]
    [slotAt "_cnpg_a" "0/1", slotAt "skipme" "", slotAt "mine" "0/2"] sampleConfig
    { scans := [ScanResult.decoded "_cnpg_a" "physical" false "0/1" false,
                ScanResult.decoded "skipme" "physical" false "" false,
                ScanResult.decoded "mine" "physical" false "0/2" false],
      Err := none }
    rfl rfl (by decide)
  ⟨h.1, h.2.1⟩

/-- C7: every slot of the list `List` returns has `IsHA` true if and only if
its `SlotName` starts with the HA prefix of the configuration. -/
theorem List_isHA_iff_has_ha_name {σ : Type} (db : SqlDB σ) (st : σ)
    (config : ReplicationSlotsConfiguration) (slot : ReplicationSlot)
    (hslot : slot ∈ (infrastructure.List db st config).list.Items) :
    slot.IsHA = true ↔ strings.HasPrefix slot.SlotName config.GetSlotPrefix = true := by
  rcases List_items_origin db st config slot hslot with ⟨n, t, a, l, h, rfl⟩
  simp [scannedSlot]

/-- C7 at the HA slot of a two-slot catalogue. -/
theorem List_isHA_iff_has_ha_name_witness :
    ({ slotAt "_cnpg_a" "0/1" with IsHA := true } : ReplicationSlot).IsHA = true ↔
      strings.HasPrefix "_cnpg_a" sampleConfig.GetSlotPrefix = true :=
  List_isHA_iff_has_ha_name catalogDB [slotAt "_cnpg_a" "0/1", slotAt "mine" "0/2"] sampleConfig
    { slotAt "_cnpg_a" "0/1" with IsHA := true } (by decide)

/-- C8, refuted as stated: the query returns the single HA-prefixed row
`_cnpg_a`.  With an exclusion check that answers, `List` returns the slot and
nil; with a check that fails, `List` returns no slot and the check's error.
The check is therefore evaluated on the HA row and its error decides the
outcome. -/
theorem List_ha_row_check_error_changes_outcome :
    haRow "_cnpg_" (ScanResult.decoded "_cnpg_a" "physical" false "0/1" false) = true ∧
    sampleConfig.GetSlotPrefix = "_cnpg_" ∧ failingConfig.GetSlotPrefix = "_cnpg_" ∧
    (infrastructure.List scriptedDB
        (Except.ok { scans := [ScanResult.decoded "_cnpg_a" "physical" false "0/1" false],
                     Err := none }) sampleConfig).list.Items =
      [{ slotAt "_cnpg_a" "0/1" with IsHA := true }] ∧
    (infrastructure.List scriptedDB
        (Except.ok { scans := [ScanResult.decoded "_cnpg_a" "physical" false "0/1" false],
                     Err := none }) sampleConfig).err = none ∧
    (infrastructure.List scriptedDB
        (Except.ok { scans := [ScanResult.decoded "_cnpg_a" "physical" false "0/1" false],
                     Err := none }) failingConfig).list.Items = [] ∧
    (infrastructure.List scriptedDB
        (Except.ok { scans := [ScanResult.decoded "_cnpg_a" "physical" false "0/1" false],
                     Err := none }) failingConfig).err = some "pattern does not compile" := by
  decide

/-- C8 as amended: for a query result made only of HA-prefixed rows and two
configurations with the same HA prefix whose exclusion checks return a Boolean
on every row, the outcome of `List` is the same whatever those Booleans are:
every row is kept, and the error is that of the row iteration. -/
theorem List_ha_rows_ignore_exclusion_verdict {σ : Type} (db : SqlDB σ) (st st' : σ)
    (config config' : ReplicationSlotsConfiguration) (rows : Rows)
    (hq : db.QueryContext st listStatement = (Except.ok rows, st'))
    (hp : config'.GetSlotPrefix = config.GetSlotPrefix)
    (hha : ∀ r ∈ rows.scans, haRow config.GetSlotPrefix r = true)
    (hok : ∀ r ∈ rows.scans, rowChecks config r = true)
    (hok' : ∀ r ∈ rows.scans, rowChecks config' r = true) :
    infrastructure.List db st config' = infrastructure.List db st config ∧
    (infrastructure.List db st config).err = rows.Err ∧
    (infrastructure.List db st config).list.Items =
      if rows.Err = none then rows.scans.filterMap (rowSlot config) else [] := by
  have hall : ∀ (c : ReplicationSlotsConfiguration), c.GetSlotPrefix = config.GetSlotPrefix →
      ∀ (rs : List ScanResult), (∀ r ∈ rs, haRow config.GetSlotPrefix r = true) →
        specKept c rs = rs.filterMap (rowSlot config) := by
    intro c hc rs
    induction rs with
    | nil => intro _; simp [specKept]
    | cons r rs ih =>
      intro h
      have hr := h r (List.mem_cons_self _ _)
      have ih' := ih (fun x hx => h x (List.mem_cons_of_mem _ hx))
      cases r with
      | failed e => simp [haRow] at hr
      | decoded n t a l hx =>
        simp only [haRow] at hr
        rw [specKept_cons_decoded, hc, hr, ih']
        simp [rowSlot, scannedSlot, hc]
  have hL := List_of_query_ok db st st' config rows hq
  have hL' := List_of_query_ok db st st' config' rows hq
  rw [listLoop_checked config rows.Err rows.scans hok, hall config rfl rows.scans hha] at hL
  rw [listLoop_checked config' rows.Err rows.scans hok', hall config' hp rows.scans hha] at hL'
  rw [hL, hL']
  cases rows.Err <;> simp

/-- C8 as amended, at two HA rows and two checks that disagree on them. -/
theorem List_ha_rows_ignore_exclusion_verdict_witness :
    infrastructure.List scriptedDB
        (Except.ok { scans := [ScanResult.decoded "_cnpg_a" "physical" false "0/1" false,
                               ScanResult.decoded "_cnpg_b" "physical" true "0/2" false],
                     Err := none })
        { GetSlotPrefix := "_cnpg_", IsExcludedByUser := fun _ => Except.ok true } =
      infrastructure.List scriptedDB
        (Except.ok { scans := [ScanResult.decoded "_cnpg_a" "physical" false "0/1" false,
                               ScanResult.decoded "_cnpg_b" "physical" true "0/2" false],
                     Err := none })
        sampleConfig :=
  (List_ha_rows_ignore_exclusion_verdict scriptedDB
    (Except.ok { scans := [ScanResult.decoded "_cnpg_a" "physical" false "0/1" false,
                           ScanResult.decoded "_cnpg_b" "physical" true "0/2" false],
                 Err := none })
    (Except.ok { scans := [ScanResult.decoded "_cnpg_a" "physical" false "0/1" false,
                           ScanResult.decoded "_cnpg_b" "physical" true "0/2" false],
                 Err := none })
    sampleConfig
    { GetSlotPrefix := "_cnpg_", IsExcludedByUser := fun _ => Except.ok true }
    { scans := [ScanResult.decoded "_cnpg_a" "physical" false "0/1" false,
                ScanResult.decoded "_cnpg_b" "physical" true "0/2" false],
      Err := none }
    rfl rfl (by decide) (by decide) (by decide)).1

/-- C9: when the user-exclusion check returns an error on a row, every row
before it having decoded and passed the check, `List` returns that error; the
list returned with it holds the kept slots of the earlier rows only, so the
failing row is not in it; and neither the rows after the failing one nor the
iteration error enter the result: any other query result with the same rows up
to the failing one gives the same list and the same error. -/
theorem List_check_error_aborts {σ : Type} (db : SqlDB σ) (st st' : σ)
    (config : ReplicationSlotsConfiguration) (rows : Rows)
    (pre post : List ScanResult) (n t : String) (a : Bool) (l : String) (h : Bool) (e : GoError)
    (hq : db.QueryContext st listStatement = (Except.ok rows, st'))
    (hrows : rows.scans = pre ++ ScanResult.decoded n t a l h :: post)
    (hpre : ∀ r ∈ pre, rowChecks config r = true)
    (herr : config.IsExcludedByUser n = Except.error e) :
    (infrastructure.List db st config).err = some e ∧
    (infrastructure.List db st config).list.Items = specKept config pre ∧
    scannedSlot config n t a l h ∉ (infrastructure.List db st config).list.Items ∧
    (∀ {τ : Type} (db2 : SqlDB τ) (st2 st2' : τ) (rows2 : Rows) (post2 : List ScanResult),
      db2.QueryContext st2 listStatement = (Except.ok rows2, st2') →
      rows2.scans = pre ++ ScanResult.decoded n t a l h :: post2 →
      (infrastructure.List db2 st2 config).list = (infrastructure.List db st config).list ∧
      (infrastructure.List db2 st2 config).err = (infrastructure.List db st config).err) := by
  have key : ∀ (rowsErr : Option GoError) (post' : List ScanResult),
      listLoop config rowsErr (pre ++ ScanResult.decoded n t a l h :: post') { Items := [] } =
        ({ Items := specKept config pre }, some e) := by
    intro rowsErr post'
    rw [listLoop_append config rowsErr pre _ _ hpre,
      listLoop_check_error config rowsErr n t a l h e post' _ herr]
    simp
  have hL := List_of_query_ok db st st' config rows hq
  rw [hrows, key] at hL
  refine ⟨by rw [hL], by rw [hL], ?_, ?_⟩
  · rw [hL]
    show scannedSlot config n t a l h ∉ specKept config pre
    rw [mem_specKept]
    rintro ⟨r, hr, _, hrs⟩
    rcases rowSlot_eq_scannedSlot config r n t a l h hrs with ⟨t', a', l', h', rfl⟩
    have hc := hpre _ hr
    simp [rowChecks, herr] at hc
  · intro τ db2 st2 st2' rows2 post2 hq2 hrows2
    have hL2 := List_of_query_ok db2 st2 st2' config rows2 hq2
    rw [hrows2, key] at hL2
    rw [hL, hL2]
    exact ⟨rfl, rfl⟩

/-- C9 at a two-row query result and a configuration whose pattern does not
compile: the check fails on the first row. -/
theorem List_check_error_aborts_witness :
    (infrastructure.List scriptedDB
        (Except.ok { scans := [ScanResult.decoded "mine" "physical" false "0/2" false,
                               ScanResult.decoded "_cnpg_a" "physical" false "0/1" false],
                     Err := none }) failingConfig).err = some "pattern does not compile" ∧
    (infrastructure.List scriptedDB
        (Except.ok { scans := [ScanResult.decoded "mine" "physical" false "0/2" false,
                               ScanResult.decoded "_cnpg_a" "physical" false "0/1" false],
                     Err := none }) failingConfig).list.Items = specKept failingConfig [] ∧
    scannedSlot failingConfig "mine" "physical" false "0/2" false ∉
      (infrastructure.List scriptedDB
        (Except.ok { scans := [ScanResult.decoded "mine" "physical" false "0/2" false,
                               ScanResult.decoded "_cnpg_a" "physical" false "0/1" false],
                     Err := none }) failingConfig).list.Items :=
  have hw := List_check_error_aborts scriptedDB
    (Except.ok { scans := [ScanResult.decoded "mine" "physical" false "0/2" false,
                           ScanResult.decoded "_cnpg_a" "physical" false "0/1" false],
                 Err := none })
    (Except.ok { scans := [ScanResult.decoded "mine" "physical" false "0/2" false,
                           ScanResult.decoded "_cnpg_a" "physical" false "0/1" false],
                 Err := none })
    failingConfig
    { scans := [ScanResult.decoded "mine" "physical" false "0/2" false,
                ScanResult.decoded "_cnpg_a" "physical" false "0/1" false],
      Err := none }
    []
    [ScanResult.decoded "_cnpg_a" "physical" false "0/1" false]
    "mine" "physical" false "0/2" false "pattern does not compile"
    rfl rfl (by decide) rfl
  ⟨hw.1, hw.2.1, hw.2.2.1⟩

/-- C10: `List` returns the error and an empty list when the query itself
fails, when a row fails to decode (the rows before it having decoded and
passed the check), and when row iteration ends with an error (every row having
decoded and passed the check); slots kept from earlier rows are discarded. -/
theorem List_query_or_decode_error_empties {σ : Type} (db : SqlDB σ) (st : σ)
    (config : ReplicationSlotsConfiguration) :
    (∀ (e : GoError) (st' : σ),
      db.QueryContext st listStatement = (Except.error e, st') →
      (infrastructure.List db st config).list = { Items := [] } ∧
      (infrastructure.List db st config).err = some e) ∧
    (∀ (rows : Rows) (st' : σ) (pre post : List ScanResult) (e : GoError),
      db.QueryContext st listStatement = (Except.ok rows, st') →
      rows.scans = pre ++ ScanResult.failed e :: post →
      (∀ r ∈ pre, rowChecks config r = true) →
      (infrastructure.List db st config).list = { Items := [] } ∧
      (infrastructure.List db st config).err = some e) ∧
    (∀ (rows : Rows) (st' : σ) (e : GoError),
      db.QueryContext st listStatement = (Except.ok rows, st') →
      (∀ r ∈ rows.scans, rowChecks config r = true) →
      rows.Err = some e →
      (infrastructure.List db st config).list = { Items := [] } ∧
      (infrastructure.List db st config).err = some e) := by
  refine ⟨?_, ?_, ?_⟩
  · intro e st' hq
    rw [List_of_query_error db st st' config e hq]
    exact ⟨rfl, rfl⟩
  · intro rows st' pre post e hq hrows hpre
    rw [List_of_query_ok db st st' config rows hq, hrows,
      listLoop_append config rows.Err pre _ _ hpre, listLoop_failed]
    exact ⟨rfl, rfl⟩
  · intro rows st' e hq hrows hend
    rw [List_of_query_ok db st st' config rows hq,
      listLoop_checked config rows.Err rows.scans hrows, hend]
    exact ⟨rfl, rfl⟩

/-- C10 at a failing query, at a row that fails to decode after a kept row, and
at an iteration error after a kept row. -/
theorem List_query_or_decode_error_empties_witness :
    ((infrastructure.List scriptedDB (Except.error "connection refused") sampleConfig).list =
        { Items := [] } ∧
      (infrastructure.List scriptedDB (Except.error "connection refused") sampleConfig).err =
        some "connection refused") ∧
    ((infrastructure.List scriptedDB
        (Except.ok { scans := [ScanResult.decoded "mine" "physical" false "0/2" false,
                               ScanResult.failed "converting NULL to string"],
                     Err := none }) sampleConfig).list = { Items := [] } ∧
      (infrastructure.List scriptedDB
        (Except.ok { scans := [ScanResult.decoded "mine" "physical" false "0/2" false,
                               ScanResult.failed "converting NULL to string"],
                     Err := none }) sampleConfig).err = some "converting NULL to string") ∧
    ((infrastructure.List scriptedDB
        (Except.ok { scans := [ScanResult.decoded "mine" "physical" false "0/2" false],
                     Err := some "connection reset" }) sampleConfig).list = { Items := [] } ∧
      (infrastructure.List scriptedDB
        (Except.ok { scans := [ScanResult.decoded "mine" "physical" false "0/2" false],
                     Err := some "connection reset" }) sampleConfig).err =
        some "connection reset") :=
  ⟨(List_query_or_decode_error_empties scriptedDB (Except.error "connection refused")
      sampleConfig).1 "connection refused" (Except.error "connection refused") rfl,
   (List_query_or_decode_error_empties scriptedDB
      (Except.ok { scans := [ScanResult.decoded "mine" "physical" false "0/2" false,
                             ScanResult.failed "converting NULL to string"],
                   Err := none }) sampleConfig).2.1
      { scans := [ScanResult.decoded "mine" "physical" false "0/2" false,
                  ScanResult.failed "converting NULL to string"],
        Err := none }
      (Except.ok { scans := [ScanResult.decoded "mine" "physical" false "0/2" false,
                             ScanResult.failed "converting NULL to string"],
                   Err := none })
      [ScanResult.decoded "mine" "physical" false "0/2" false] []
      "converting NULL to string" rfl rfl (by decide),
   (List_query_or_decode_error_empties scriptedDB
      (Except.ok { scans := [ScanResult.decoded "mine" "physical" false "0/2" false],
                   Err := some "connection reset" }) sampleConfig).2.2
      { scans := [ScanResult.decoded "mine" "physical" false "0/2" false],
        Err := some "connection reset" }
      (Except.ok { scans := [ScanResult.decoded "mine" "physical" false "0/2" false],
                   Err := some "connection reset" })
      "connection reset" rfl (by decide) rfl⟩

/-! ## Plugin hooks -/

/-- C11, refuted as stated: in the background context, where no plugin client
was ever stored, the lookup panics on the type assertion, and so do both
hooks. -/
theorem hooks_panic_without_registered_client :
    Context.Value (Context.background : Context String) ContextKey.PluginClientKey =
      AnyValue.nil ∧
    controller.getPluginClientFromContext (Context.background : Context String) =
      GoCall.panics "interface conversion: interface is nil, not client.Client" ∧
    controller.preReconcilePluginHooks namedClients Context.background "cluster-example" "pod-1" =
      GoCall.panics "interface conversion: interface is nil, not client.Client" ∧
    controller.postReconcilePluginHooks namedClients Context.background "cluster-example" "pod-1" =
      GoCall.panics "interface conversion: interface is nil, not client.Client" := by
  decide

/-- C11 as amended: the lookup has no pass-through default.  It returns a
client exactly when that client is the value the context holds under
`utils.PluginClientKey`; in every context whose value under the key is not a
plugin client, `getPluginClientFromContext` panics and so do both hooks, for
every cluster and object. -/
theorem getPluginClientFromContext_returns_iff_registered {κ γ ω ρ : Type}
    (methods : ClientMethods κ γ ω ρ) (ctx : Context κ) (cluster : γ) (object : ω) :
    (∀ c : κ, controller.getPluginClientFromContext ctx = GoCall.returns c ↔
      Context.Value ctx ContextKey.PluginClientKey = AnyValue.client c) ∧
    ((∀ c : κ, Context.Value ctx ContextKey.PluginClientKey ≠ AnyValue.client c) →
      (∃ msg, controller.getPluginClientFromContext ctx = GoCall.panics msg) ∧
      (∃ msg, controller.preReconcilePluginHooks methods ctx cluster object =
        GoCall.panics msg) ∧
      (∃ msg, controller.postReconcilePluginHooks methods ctx cluster object =
        GoCall.panics msg)) := by
  constructor
  · intro c
    cases hv : Context.Value ctx ContextKey.PluginClientKey <;>
      simp [controller.getPluginClientFromContext, hv]
  · intro hno
    cases hv : Context.Value ctx ContextKey.PluginClientKey with
    | client c => exact absurd hv (hno c)
    | nil =>
      simp [controller.preReconcilePluginHooks, controller.postReconcilePluginHooks,
        controller.getPluginClientFromContext, hv]
    | other typeName =>
      simp [controller.preReconcilePluginHooks, controller.postReconcilePluginHooks,
        controller.getPluginClientFromContext, hv]

/-- C11 as amended, at a context that only holds a value under another key. -/
theorem getPluginClientFromContext_returns_iff_registered_witness :
    (∃ msg, controller.getPluginClientFromContext
        (Context.withValue (Context.background : Context String)
          (ContextKey.other "logger") (AnyValue.other "logr.Logger")) = GoCall.panics msg) ∧
    (∃ msg, controller.preReconcilePluginHooks namedClients
        (Context.withValue (Context.background : Context String)
          (ContextKey.other "logger") (AnyValue.other "logr.Logger"))
        "cluster-example" "pod-1" = GoCall.panics msg) ∧
    (∃ msg, controller.postReconcilePluginHooks namedClients
        (Context.withValue (Context.background : Context String)
          (ContextKey.other "logger") (AnyValue.other "logr.Logger"))
        "cluster-example" "pod-1" = GoCall.panics msg) :=
  (getPluginClientFromContext_returns_iff_registered namedClients
    (Context.withValue (Context.background : Context String)
      (ContextKey.other "logger") (AnyValue.other "logr.Logger"))
    "cluster-example" "pod-1").2 (fun c hc => by simp [Context.Value] at hc)

/-- C15: with `ctx' = setPluginClientInContext(ctx, c)` for a plugin client
`c`, `getPluginClientFromContext(ctx')` returns `c`, and the two hooks return
what `c.PreReconcile(ctx', cluster, object)` and
`c.PostReconcile(ctx', cluster, object)` return, unchanged. -/
theorem hooks_dispatch_to_registered_client {κ γ ω ρ : Type}
    (methods : ClientMethods κ γ ω ρ) (c : κ) (ctx : Context κ) (cluster : γ) (object : ω) :
    controller.getPluginClientFromContext (controller.setPluginClientInContext ctx (some c)) =
      GoCall.returns c ∧
    controller.preReconcilePluginHooks methods
        (controller.setPluginClientInContext ctx (some c)) cluster object =
      GoCall.returns (methods.PreReconcile c
        (controller.setPluginClientInContext ctx (some c)) cluster object) ∧
    controller.postReconcilePluginHooks methods
        (controller.setPluginClientInContext ctx (some c)) cluster object =
      GoCall.returns (methods.PostReconcile c
        (controller.setPluginClientInContext ctx (some c)) cluster object) := by
  have hget : controller.getPluginClientFromContext
      (controller.setPluginClientInContext ctx (some c)) = GoCall.returns c := by
    simp [controller.getPluginClientFromContext, controller.setPluginClientInContext,
      Context.Value]
  refine ⟨hget, ?_, ?_⟩
  · simp only [controller.preReconcilePluginHooks, hget]
  · simp only [controller.postReconcilePluginHooks, hget]

/-! ## The `pgbench` command -/

/-- The validator on command lines with a `--`: more than one argument before
it is an error, and the shape `CLUSTER -- ARGS...` (also `CLUSTER` alone, with
no `--`) is accepted. -/
theorem validateCommandArgs_with_dash (line : CommandLine) :
    (∀ after, line.afterDash = some after → 1 < line.beforeDash.length →
      pgbench.validateCommandArgs line.command line.args =
        some "PGBENCH_COMMAND_ARGS should be passed after the -- delimiter") ∧
    (∀ cluster, line.beforeDash = [cluster] →
      pgbench.validateCommandArgs line.command line.args = none) := by
  constructor
  · intro after hafter hlen
    have hne : line.beforeDash ≠ [] := by
      intro h
      rw [h] at hlen
      simp at hlen
    have hdash : (1 : Int) < (line.beforeDash.length : Int) := by exact_mod_cast hlen
    simp [pgbench.validateCommandArgs, cobra.MinimumNArgs, CommandLine.args,
      CommandLine.command, hafter, hne, hdash]
  · intro cluster hbefore
    cases hafter : line.afterDash <;>
      simp [pgbench.validateCommandArgs, cobra.MinimumNArgs, CommandLine.args,
        CommandLine.command, hafter, hbefore]

/-- C14, the code at the failing input: the command line
`pgbench cluster-example extra` has two arguments and no `--`, so
`ArgsLenAtDash()` is `-1`; `validateCommandArgs` returns nil and the run step
takes `extra` as a pgbench argument. -/
theorem validateCommandArgs_accepts_extra_args_without_dash :
    CommandLine.args { beforeDash := ["cluster-example", "extra"], afterDash := none } =
      ["cluster-example", "extra"] ∧
    (CommandLine.command
      { beforeDash := ["cluster-example", "extra"], afterDash := none }).ArgsLenAtDash = -1 ∧
    pgbench.validateCommandArgs
      (CommandLine.command { beforeDash := ["cluster-example", "extra"], afterDash := none })
      (CommandLine.args { beforeDash := ["cluster-example", "extra"], afterDash := none }) =
      none ∧
    pgbench.runE pgbench.newRun
      (CommandLine.args { beforeDash := ["cluster-example", "extra"], afterDash := none }) =
      GoCall.returns { pgbench.newRun with clusterName := "cluster-example",
                                           pgBenchCommandArgs := ["extra"] } := by
  decide

/-- C17: an empty argument list is always rejected; for every argument list
that `validateCommandArgs` accepts, the list is non-empty and the run step does
not panic: it sets the cluster name to the first argument and the pgbench
arguments to the remaining ones in order (none when only `CLUSTER` is given),
leaving the other fields as they were. -/
theorem validateCommandArgs_accepted_args_nonempty (cmd : cobra.Command) (run : pgBenchRun)
    (args : List String) :
    pgbench.validateCommandArgs cmd [] ≠ none ∧
    (pgbench.validateCommandArgs cmd args = none →
      args ≠ [] ∧
      ∃ run' : pgBenchRun,
        pgbench.runE run args = GoCall.returns run' ∧
        some run'.clusterName = args.head? ∧
        run'.pgBenchCommandArgs = args.tail ∧
        run' = { run with clusterName := run'.clusterName,
                          pgBenchCommandArgs := run'.pgBenchCommandArgs }) := by
  constructor
  · simp [pgbench.validateCommandArgs, cobra.MinimumNArgs]
  · intro hok
    cases args with
    | nil => simp [pgbench.validateCommandArgs, cobra.MinimumNArgs] at hok
    | cons cluster rest =>
      exact ⟨List.cons_ne_nil _ _, _, rfl, rfl, rfl, rfl⟩

/-- C17 at the command line `pgbench cluster-example -- --time 30`. -/
theorem validateCommandArgs_accepted_args_nonempty_witness :
    ["cluster-example", "--time", "30"] ≠ [] ∧
    ∃ run' : pgBenchRun,
      pgbench.runE pgbench.newRun ["cluster-example", "--time", "30"] = GoCall.returns run' ∧
      some run'.clusterName = ["cluster-example", "--time", "30"].head? ∧
      run'.pgBenchCommandArgs = ["cluster-example", "--time", "30"].tail ∧
      run' = { pgbench.newRun with clusterName := run'.clusterName,
                                   pgBenchCommandArgs := run'.pgBenchCommandArgs } :=
  (validateCommandArgs_accepted_args_nonempty
    (CommandLine.command { beforeDash := ["cluster-example"], afterDash := some ["--time", "30"] })
    pgbench.newRun ["cluster-example", "--time", "30"]).2 (by decide)

/-! ## Frame and independence properties of the slot directory -/

/-- C12: every slot of the list `List` returns comes from a row of the query
result and carries the `SlotName`, `Type`, `Active`, `RestartLSN` and
`HoldsXmin` values of that row as decoded; only `IsHA` is computed.  (`Update`,
`Create` and `Delete` receive the slot as a value and their results hold no
slot: an error, the database and the statements sent.) -/
theorem List_slots_carry_row_values {σ : Type} (db : SqlDB σ) (st : σ)
    (config : ReplicationSlotsConfiguration) (slot : ReplicationSlot)
    (hslot : slot ∈ (infrastructure.List db st config).list.Items) :
    ∃ (rows : Rows) (st' : σ) (n t : String) (a : Bool) (l : String) (h : Bool),
      db.QueryContext st listStatement = (Except.ok rows, st') ∧
      ScanResult.decoded n t a l h ∈ rows.scans ∧
      slot.SlotName = n ∧ slot.Type_ = t ∧ slot.Active = a ∧ slot.RestartLSN = l ∧
      slot.HoldsXmin = h ∧
      slot.IsHA = strings.HasPrefix n config.GetSlotPrefix := by
  rcases hq : db.QueryContext st listStatement with ⟨res, st'⟩
  cases res with
  | error e =>
    rw [List_of_query_error db st st' config e hq] at hslot
    simp at hslot
  | ok rows =>
    rw [List_of_query_ok db st st' config rows hq] at hslot
    rcases listLoop_items_origin config rows.Err rows.scans _ slot hslot with h1 | ⟨r, hr, hrs⟩
    · simp at h1
    · cases r with
      | failed e => simp [rowSlot] at hrs
      | decoded n t a l h =>
        simp only [rowSlot, Option.some.injEq] at hrs
        subst hrs
        exact ⟨rows, st', n, t, a, l, h, rfl, hr, rfl, rfl, rfl, rfl, rfl, rfl⟩

/-- C12 at the active HA slot of a catalogue that pins an xmin horizon. -/
theorem List_slots_carry_row_values_witness :
    ∃ (rows : Rows) (st' : List ReplicationSlot) (n t : String) (a : Bool) (l : String) (h : Bool),
      catalogDB.QueryContext
          [{ slotAt "_cnpg_a" "0/1" with Active := true, HoldsXmin := true }] listStatement =
        (Except.ok rows, st') ∧
      ScanResult.decoded n t a l h ∈ rows.scans ∧
      "_cnpg_a" = n ∧ "physical" = t ∧ true = a ∧ "0/1" = l ∧ true = h ∧
      true = strings.HasPrefix n sampleConfig.GetSlotPrefix :=
  List_slots_carry_row_values catalogDB
    [{ slotAt "_cnpg_a" "0/1" with Active := true, HoldsXmin := true }] sampleConfig
    { slotAt "_cnpg_a" "0/1" with Active := true, HoldsXmin := true, IsHA := true }
    (by decide)

/-- Rows that agree on name and type make the loop of `List` stop with the same
error and keep slots of the same identity, whatever their `active`,
`restart_lsn` and `holds_xmin` values. -/
theorem listLoop_sameNamedRows (config : ReplicationSlotsConfiguration)
    (rowsErr : Option GoError) (rows rows' : List ScanResult)
    (hrows : List.Forall₂ sameNamedRow rows rows') :
    ∀ (status status' : ReplicationSlotList),
      status.Items.map slotIdentity = status'.Items.map slotIdentity →
      (listLoop config rowsErr rows status).2 = (listLoop config rowsErr rows' status').2 ∧
      (listLoop config rowsErr rows status).1.Items.map slotIdentity =
        (listLoop config rowsErr rows' status').1.Items.map slotIdentity := by
  induction hrows with
  | nil =>
    intro status status' hst
    cases rowsErr <;> simp [listLoop, hst]
  | @cons r r' rest rest' hr _ ih =>
    intro status status' hst
    cases r with
    | failed e =>
      cases r' with
      | failed e' =>
        have he : e = e' := by simpa [sameNamedRow] using hr
        simp [listLoop, he]
      | decoded n' t' a' l' h' => simp [sameNamedRow] at hr
    | decoded n t a l h =>
      cases r' with
      | failed e' => simp [sameNamedRow] at hr
      | decoded n' t' a' l' h' =>
        obtain ⟨hn, ht⟩ : n = n' ∧ t = t' := by simpa [sameNamedRow] using hr
        subst hn
        subst ht
        cases hc : config.IsExcludedByUser n with
        | error e =>
          rw [listLoop_check_error config rowsErr n t a l h e rest status hc,
            listLoop_check_error config rowsErr n t a' l' h' e rest' status' hc]
          exact ⟨rfl, hst⟩
        | ok b =>
          simp only [listLoop, scannedSlot_name, hc]
          have hha : (scannedSlot config n t a l h).IsHA = (scannedSlot config n t a' l' h').IsHA :=
            rfl
          rw [hha]
          split
          · exact ih status status' hst
          · apply ih
            simp [hst, slotIdentity, scannedSlot]

/-- C13: two slots with the same `SlotName`, `Active` and `RestartLSN`, which
may differ in `HoldsXmin`, `Type` and `IsHA`, make `Delete`, `Update` and
`Create` send the same statements and return the same result against the same
database; and two query results whose rows agree on name and type, whatever
their `holds_xmin`, `active` and `restart_lsn`, make `List` return the same
error and keep the same rows. -/
theorem decisions_ignore_HoldsXmin {σ : Type} (db : SqlDB σ) (st : σ)
    (config : ReplicationSlotsConfiguration) :
    (∀ slot slot' : ReplicationSlot,
      slot.SlotName = slot'.SlotName → slot.Active = slot'.Active →
      slot.RestartLSN = slot'.RestartLSN →
      infrastructure.Delete db st slot = infrastructure.Delete db st slot' ∧
      infrastructure.Update db st slot = infrastructure.Update db st slot' ∧
      infrastructure.Create db st slot = infrastructure.Create db st slot') ∧
    (∀ {τ : Type} (db2 : SqlDB τ) (st2 : τ) (rows rows2 : Rows) (st' : σ) (st2' : τ),
      db.QueryContext st listStatement = (Except.ok rows, st') →
      db2.QueryContext st2 listStatement = (Except.ok rows2, st2') →
      List.Forall₂ sameNamedRow rows.scans rows2.scans →
      rows.Err = rows2.Err →
      (infrastructure.List db st config).err = (infrastructure.List db2 st2 config).err ∧
      (infrastructure.List db st config).list.Items.map slotIdentity =
        (infrastructure.List db2 st2 config).list.Items.map slotIdentity) := by
  constructor
  · intro slot slot' hN hA hL
    simp [infrastructure.Delete, infrastructure.Update, infrastructure.Create, hN, hA, hL]
  · intro τ db2 st2 rows rows2 st' st2' hq hq2 hrows herr
    rw [List_of_query_ok db st st' config rows hq,
      List_of_query_ok db2 st2 st2' config rows2 hq2, ← herr]
    exact listLoop_sameNamedRows config rows.Err rows.scans rows2.scans hrows _ _ rfl

/-- C13 at two slots named `s` that differ in `HoldsXmin`, `Type` and `IsHA`,
and at two one-row query results that differ in the observed columns. -/
theorem decisions_ignore_HoldsXmin_witness :
    (infrastructure.Delete catalogDB [slotAt "s" "0/1"] (slotAt "s" "0/2") =
        infrastructure.Delete catalogDB [slotAt "s" "0/1"]
          { slotAt "s" "0/2" with HoldsXmin := true, Type_ := "logical", IsHA := true } ∧
      infrastructure.Update catalogDB [slotAt "s" "0/1"] (slotAt "s" "0/2") =
        infrastructure.Update catalogDB [slotAt "s" "0/1"]
          { slotAt "s" "0/2" with HoldsXmin := true, Type_ := "logical", IsHA := true } ∧
      infrastructure.Create catalogDB [slotAt "s" "0/1"] (slotAt "s" "0/2") =
        infrastructure.Create catalogDB [slotAt "s" "0/1"]
          { slotAt "s" "0/2" with HoldsXmin := true, Type_ := "logical", IsHA := true }) ∧
    ((infrastructure.List catalogDB [slotAt "skipme" "0/1"] sampleConfig).err =
        (infrastructure.List scriptedDB
          (Except.ok { scans := [ScanResult.decoded "skipme" "physical" true "" true],
                       Err := none }) sampleConfig).err ∧
      (infrastructure.List catalogDB [slotAt "skipme" "0/1"] sampleConfig).list.Items.map
          slotIdentity =
        (infrastructure.List scriptedDB
          (Except.ok { scans := [ScanResult.decoded "skipme" "physical" true "" true],
                       Err := none }) sampleConfig).list.Items.map slotIdentity) :=
  ⟨(decisions_ignore_HoldsXmin catalogDB [slotAt "s" "0/1"] sampleConfig).1
      (slotAt "s" "0/2")
      { slotAt "s" "0/2" with HoldsXmin := true, Type_ := "logical", IsHA := true }
      rfl rfl rfl,
   (decisions_ignore_HoldsXmin catalogDB [slotAt "skipme" "0/1"] sampleConfig).2
      scriptedDB
      (Except.ok { scans := [ScanResult.decoded "skipme" "physical" true "" true],
                   Err := none })
      { scans := [ScanResult.decoded "skipme" "physical" false "0/1" false], Err := none }
      { scans := [ScanResult.decoded "skipme" "physical" true "" true], Err := none }
      [slotAt "skipme" "0/1"]
      (Except.ok { scans := [ScanResult.decoded "skipme" "physical" true "" true],
                   Err := none })
      rfl rfl
      (List.Forall₂.cons (by simp [sameNamedRow]) List.Forall₂.nil)
      rfl⟩

/-- With a check that never fails, the loop of `List` returns an error only
with an empty list, whatever it has accumulated. -/
theorem listLoop_error_empty_of_total_check (config : ReplicationSlotsConfiguration)
    (rowsErr : Option GoError)
    (hcheck : ∀ n, ∃ b, config.IsExcludedByUser n = Except.ok b) :
    ∀ (rows : List ScanResult) (status : ReplicationSlotList),
      (listLoop config rowsErr rows status).2 ≠ none →
      (listLoop config rowsErr rows status).1.Items = []
  | [], status, herr => by
    cases rowsErr <;> simp [listLoop] at herr ⊢
  | ScanResult.failed e :: rest, status, _ => by
    simp [listLoop]
  | ScanResult.decoded n t a l h :: rest, status, herr => by
    obtain ⟨b, hb⟩ := hcheck n
    simp only [listLoop, scannedSlot_name, hb] at herr ⊢
    split
    · rename_i hskip
      rw [if_pos hskip] at herr
      exact listLoop_error_empty_of_total_check config rowsErr hcheck rest _ herr
    · rename_i hkeep
      rw [if_neg hkeep] at herr
      exact listLoop_error_empty_of_total_check config rowsErr hcheck rest _ herr

/-- With a check that fails on every name, the loop of `List` started on the
empty list returns an empty list. -/
theorem listLoop_empty_of_failing_check (config : ReplicationSlotsConfiguration)
    (rowsErr : Option GoError) (e : GoError)
    (hcheck : ∀ n, config.IsExcludedByUser n = Except.error e) (rows : List ScanResult) :
    (listLoop config rowsErr rows { Items := [] }).1.Items = [] := by
  cases rows with
  | nil => cases rowsErr <;> simp [listLoop]
  | cons r rest =>
    cases r with
    | failed e' => simp [listLoop]
    | decoded n t a l h =>
      rw [listLoop_check_error config rowsErr n t a l h e rest _ (hcheck n)]

/-- With the pattern check of the specification, whenever `List` returns an
error the list it returns is empty. -/
theorem List_patternConfig_error_empty {σ : Type} (db : SqlDB σ) (st : σ)
    (haPrefix : String) (compileErr : Option GoError) (isMatch : String → Bool)
    (herr : (infrastructure.List db st (patternConfig haPrefix compileErr isMatch)).err ≠ none) :
    (infrastructure.List db st (patternConfig haPrefix compileErr isMatch)).list.Items = [] := by
  rcases hq : db.QueryContext st listStatement with ⟨res, st'⟩
  cases res with
  | error e => rw [List_of_query_error db st st' _ e hq]
  | ok rows =>
    rw [List_of_query_ok db st st' _ rows hq] at herr ⊢
    cases compileErr with
    | some e =>
      exact listLoop_empty_of_failing_check _ rows.Err e (fun _ => rfl) rows.scans
    | none =>
      exact listLoop_error_empty_of_total_check _ rows.Err (fun n => ⟨isMatch n, rfl⟩)
        rows.scans _ herr

/-- C16, refuted as stated: the exclusion check fails only when a pattern does
not compile, on every name alike, so it fails on the first row and nothing has
been kept yet.  On the rows `mine` and `_cnpg_a`, neither of them excluded,
the list returned with the check's error is empty, and no query result and no
pattern configuration make `List` return an error with a non-empty list. -/
theorem List_check_error_comes_with_empty_list :
    (infrastructure.List scriptedDB
        (Except.ok { scans := [ScanResult.decoded "mine" "physical" false "0/2" false,
                               ScanResult.decoded "_cnpg_a" "physical" false "0/1" false],
                     Err := none }) failingConfig).err = some "pattern does not compile" ∧
    (infrastructure.List scriptedDB
        (Except.ok { scans := [ScanResult.decoded "mine" "physical" false "0/2" false,
                               ScanResult.decoded "_cnpg_a" "physical" false "0/1" false],
                     Err := none }) failingConfig).list.Items = [] ∧
    ¬ ∃ (response : Except GoError Rows) (haPrefix : String) (compileErr : Option GoError)
        (isMatch : String → Bool),
      (infrastructure.List scriptedDB response
        (patternConfig haPrefix compileErr isMatch)).err ≠ none ∧
      (infrastructure.List scriptedDB response
        (patternConfig haPrefix compileErr isMatch)).list.Items ≠ [] := by
  refine ⟨by decide, by decide, ?_⟩
  rintro ⟨response, haPrefix, compileErr, isMatch, herr, hne⟩
  exact hne (List_patternConfig_error_empty scriptedDB response haPrefix compileErr isMatch herr)

/-- C16 as amended: when the user-exclusion check fails on a row, the rows
before it having decoded and passed the check, the list returned with the error
is the kept slots of those earlier rows, in order; a query error and a
row-decoding error come with an empty list; and since the check of the
specification fails on every name or on none, every error `List` returns under
it comes with an empty list. -/
theorem List_error_results {σ : Type} (db : SqlDB σ) (st : σ)
    (config : ReplicationSlotsConfiguration) :
    (∀ (rows : Rows) (st' : σ) (pre post : List ScanResult)
        (n t : String) (a : Bool) (l : String) (h : Bool) (e : GoError),
      db.QueryContext st listStatement = (Except.ok rows, st') →
      rows.scans = pre ++ ScanResult.decoded n t a l h :: post →
      (∀ r ∈ pre, rowChecks config r = true) →
      config.IsExcludedByUser n = Except.error e →
      (infrastructure.List db st config).err = some e ∧
      (infrastructure.List db st config).list.Items = specKept config pre) ∧
    (∀ (e : GoError) (st' : σ),
      db.QueryContext st listStatement = (Except.error e, st') →
      (infrastructure.List db st config).err = some e ∧
      (infrastructure.List db st config).list.Items = []) ∧
    (∀ (rows : Rows) (st' : σ) (pre post : List ScanResult) (e : GoError),
      db.QueryContext st listStatement = (Except.ok rows, st') →
      rows.scans = pre ++ ScanResult.failed e :: post →
      (∀ r ∈ pre, rowChecks config r = true) →
      (infrastructure.List db st config).err = some e ∧
      (infrastructure.List db st config).list.Items = []) ∧
    (∀ (haPrefix : String) (compileErr : Option GoError) (isMatch : String → Bool),
      (infrastructure.List db st (patternConfig haPrefix compileErr isMatch)).err ≠ none →
      (infrastructure.List db st (patternConfig haPrefix compileErr isMatch)).list.Items = []) := by
  refine ⟨?_, ?_, ?_, ?_⟩
  · intro rows st' pre post n t a l h e hq hrows hpre herr
    rw [List_of_query_ok db st st' config rows hq, hrows,
      listLoop_append config rows.Err pre _ _ hpre,
      listLoop_check_error config rows.Err n t a l h e post _ herr]
    simp
  · intro e st' hq
    rw [List_of_query_error db st st' config e hq]
    exact ⟨rfl, rfl⟩
  · intro rows st' pre post e hq hrows hpre
    rw [List_of_query_ok db st st' config rows hq, hrows,
      listLoop_append config rows.Err pre _ _ hpre, listLoop_failed]
    exact ⟨rfl, rfl⟩
  · intro haPrefix compileErr isMatch herr
    exact List_patternConfig_error_empty db st haPrefix compileErr isMatch herr

/-- C16 as amended, at a two-row query result and a pattern that does not
compile: the check fails on the first row, and the error comes with an empty
list. -/
theorem List_error_results_witness :
    ((infrastructure.List scriptedDB
        (Except.ok { scans := [ScanResult.decoded "mine" "physical" false "0/2" false,
                               ScanResult.decoded "_cnpg_a" "physical" false "0/1" false],
                     Err := none }) failingConfig).err = some "pattern does not compile" ∧
      (infrastructure.List scriptedDB
        (Except.ok { scans := [ScanResult.decoded "mine" "physical" false "0/2" false,
                               ScanResult.decoded "_cnpg_a" "physical" false "0/1" false],
                     Err := none }) failingConfig).list.Items = specKept failingConfig []) ∧
    (infrastructure.List scriptedDB
        (Except.ok { scans := [ScanResult.decoded "mine" "physical" false "0/2" false,
                               ScanResult.decoded "_cnpg_a" "physical" false "0/1" false],
                     Err := none })
        (patternConfig "_cnpg_" (some "pattern does not compile")
          (fun n => n == "skipme"))).list.Items = [] :=
  ⟨(List_error_results scriptedDB
      (Except.ok { scans := [ScanResult.decoded "mine" "physical" false "0/2" false,
                             ScanResult.decoded "_cnpg_a" "physical" false "0/1" false],
                   Err := none }) failingConfig).1
      { scans := [ScanResult.decoded "mine" "physical" false "0/2" false,
                  ScanResult.decoded "_cnpg_a" "physical" false "0/1" false],
        Err := none }
      (Except.ok { scans := [ScanResult.decoded "mine" "physical" false "0/2" false,
                             ScanResult.decoded "_cnpg_a" "physical" false "0/1" false],
                   Err := none })
      []
      [ScanResult.decoded "_cnpg_a" "physical" false "0/1" false]
      "mine" "physical" false "0/2" false "pattern does not compile"
      rfl rfl (by decide) rfl,
   (List_error_results scriptedDB
      (Except.ok { scans := [ScanResult.decoded "mine" "physical" false "0/2" false,
                             ScanResult.decoded "_cnpg_a" "physical" false "0/1" false],
                   Err := none }) sampleConfig).2.2.2
      "_cnpg_" (some "pattern does not compile") (fun n => n == "skipme") (by decide)⟩
